import Mathlib

/-
  Shallow embedding of src/src/peripheral/LCDS.rs: a driver that encodes
  display operations for a serial character LCD as byte-level escape
  sequences and hands them to an SPI transport.

  Modelling conventions:
  - u8 values are Nat; additions that can overflow a u8 are written with
    an explicit mod 256 (addByte).  Comparisons of a u8 against a lower
    bound of 0 in the source are vacuous and are dropped.
  - A buffer handed to send_bytes is a List Nat; the observable
    output is the list of buffers it hands to send_bytes, in order.
  - Operations that return an error code yield (code, buffers); operations
    with no return value yield just the buffers.
  - The transport handle (spi_module : Option Spi) is modelled as
    Option Bool: none = uninitialized, some true = writes succeed,
    some false = writes fail.  send_bytes is modelled separately with that
    state to capture its logging behaviour (it returns unit in the source
    and only logs; it never propagates the failure to its caller).
  - Rust strings are modelled as their byte lists (the claims only involve
    ASCII text, where bytes and chars coincide).
  - The source file contains identifier-level slips (bResult vs result,
    missing mut) whose intent is unambiguous from the enclosing function;
    the embedding resolves those and keeps the behaviourally meaningful
    content exactly as written, including the column check of
    write_string_at_pos ORing the ROW range code and its position prefix
    omitting the ones digit of the column.
-/

namespace LCDS

/-- 8-bit addition as performed on u8 values in the source. -/
def addByte (a b : Nat) : Nat := (a + b) % 256

-- Command constants (DIGILENT codes)
def ESC : Nat := 0x1B
def BRACKET : Nat := 0x5B
def CURSOR_POS_CMD : Nat := 0x48
def CURSOR_SAVE_CMD : Nat := 0x73
def CURSOR_RSTR_CMD : Nat := 0x75
def DISP_CLR_CMD : Nat := 0x6A
def ERASE_INLINE_CMD : Nat := 0x4B
def ERASE_FIELD_CMD : Nat := 0x4E
def LSCROLL_CMD : Nat := 0x40
def RSCROLL_CMD : Nat := 0x41
def RST_CMD : Nat := 0x2A
def DISP_EN_CMD : Nat := 0x65
def DISP_MODE_CMD : Nat := 0x68
def CURSOR_MODE_CMD : Nat := 0x63
def TWI_SAVE_ADDR_CMD : Nat := 0x61
def BR_SAVE_CMD : Nat := 0x62
def PRG_CHAR_CMD : Nat := 0x70
def SAVE_RAM_TO_EEPROM_CMD : Nat := 0x74
def LD_EEPROM_TO_RAM_CMD : Nat := 0x6C
def DEF_CHAR_CMD : Nat := 0x64
def COMM_MODE_SAVE_CMD : Nat := 0x6D
def EEPROM_WR_EN_CMD : Nat := 0x77
def CURSOR_MODE_SAVE_CMD : Nat := 0x6E
def DISP_MODE_SAVE_CMD : Nat := 0x6F

-- Error definitions
def LCDS_ERR_SUCCESS : Nat := 0
def LCDS_ERR_ARG_ROW_RANGE : Nat := 1
def LCDS_ERR_ARG_COL_RANGE : Nat := 2
def LCDS_ERR_ARG_ERASE_OPTIONS : Nat := 3
def LCDS_ERR_ARG_BR_RANGE : Nat := 4
def LCDS_ERR_ARG_TABLE_RANGE : Nat := 5
def LCDS_ERR_ARG_COMM_RANGE : Nat := 6
def LCDS_ERR_ARG_CRS_RANGE : Nat := 7
def LCDS_ERR_ARG_DSP_RANGE : Nat := 8
def LCDS_ERR_ARG_POS_RANGE : Nat := 9

/-- ASCII code of the digit character 0 (b-zero in the source). -/
def DIGIT0 : Nat := 48

/-- ASCII code of the semicolon separator. -/
def SEMI : Nat := 59

/-- display_set: the four fixed display/backlight buffers keyed on the two flags. -/
def display_set (set_display set_bckl : Bool) : List (List Nat) :=
  match set_display, set_bckl with
  | false, false => [[ESC, BRACKET, 48, DISP_EN_CMD]]
  | true,  false => [[ESC, BRACKET, 49, DISP_EN_CMD]]
  | false, true  => [[ESC, BRACKET, 50, DISP_EN_CMD]]
  | true,  true  => [[ESC, BRACKET, 51, DISP_EN_CMD]]

/-- cursor_mode_set: cursor off / on without blink / blink. -/
def cursor_mode_set (set_cursor set_blink : Bool) : List (List Nat) :=
  match set_cursor, set_blink with
  | false, _     => [[ESC, BRACKET, 48, CURSOR_MODE_CMD]]
  | true,  false => [[ESC, BRACKET, 49, CURSOR_MODE_CMD]]
  | true,  true  => [[ESC, BRACKET, 50, CURSOR_MODE_CMD]]

/-- display_clear: clears the display. -/
def display_clear : List (List Nat) := [[ESC, BRACKET, DISP_CLR_CMD]]

/-- write_string_at_pos: validates row and column (the column check ORs the
ROW range code, exactly as in the source), then sends a position prefix
(which carries only the tens digit of the column: the source computes
first_digit but never uses it) followed by the truncated text bytes. -/
def write_string_at_pos (idx_row idx_col : Nat) (str_ln : List Nat) :
    Nat × List (List Nat) :=
  let result := LCDS_ERR_SUCCESS
  let result := if idx_row > 2 then result ||| LCDS_ERR_ARG_ROW_RANGE else result
  let result := if idx_col > 39 then result ||| LCDS_ERR_ARG_ROW_RANGE else result
  if result = LCDS_ERR_SUCCESS then
    let second_digit := idx_col / 10
    let length := str_ln.length
    let length_to_print := str_ln.length + idx_col
    let string_to_send :=
      [ESC, BRACKET, addByte idx_row DIGIT0, SEMI, addByte second_digit DIGIT0,
       CURSOR_POS_CMD]
    let length := if length_to_print > 40 then 40 - idx_col else length
    (result, [string_to_send, str_ln.take length])
  else
    (result, [])

/-- display_mode: wrap at 16 characters (true) or 40 characters (false). -/
def display_mode (char_number : Bool) : List (List Nat) :=
  if char_number then [[ESC, BRACKET, 48, DISP_MODE_CMD]]
  else [[ESC, BRACKET, 49, DISP_MODE_CMD]]

/-- display_scroll: validates the column offset, issues display_mode(true)
first, then the scroll command with tens and ones digits. -/
def display_scroll (direction : Bool) (idx_col : Nat) : Nat × List (List Nat) :=
  if idx_col ≤ 39 then
    let first_digit := idx_col % 10
    let second_digit := idx_col / 10
    let r_scroll := [ESC, BRACKET, addByte second_digit DIGIT0,
      addByte first_digit DIGIT0, RSCROLL_CMD]
    let l_scroll := [ESC, BRACKET, addByte second_digit DIGIT0,
      addByte first_digit DIGIT0, LSCROLL_CMD]
    (LCDS_ERR_SUCCESS,
      display_mode true ++ [if direction then r_scroll else l_scroll])
  else
    (LCDS_ERR_ARG_COL_RANGE, [])

/-- save_cursor: saves the current cursor position. -/
def save_cursor : List (List Nat) := [[ESC, BRACKET, 48, CURSOR_SAVE_CMD]]

/-- restore_cursor: restores the saved cursor position. -/
def restore_cursor : List (List Nat) := [[ESC, BRACKET, 48, CURSOR_RSTR_CMD]]

/-- erase_in_line: validates the erase mode (0..2) and sends one buffer. -/
def erase_in_line (erase_param : Nat) : Nat × List (List Nat) :=
  if erase_param ≤ 2 then
    (LCDS_ERR_SUCCESS, [[ESC, BRACKET, addByte erase_param DIGIT0, ERASE_INLINE_CMD]])
  else
    (LCDS_ERR_ARG_ERASE_OPTIONS, [])

/-- erase_chars: no validation, no error code; the parameter byte is an
8-bit addition of the count with the digit-zero code. -/
def erase_chars (chars_number : Nat) : List (List Nat) :=
  [[ESC, BRACKET, addByte chars_number DIGIT0, ERASE_FIELD_CMD]]

/-- reset: cycles power of the device. -/
def reset : List (List Nat) := [[ESC, BRACKET, 48, RST_CMD]]

/-- save_twi_addr: no validation; parameter byte is an 8-bit addition. -/
def save_twi_addr (addr_eeprom : Nat) : List (List Nat) :=
  [[ESC, BRACKET, addByte addr_eeprom DIGIT0, TWI_SAVE_ADDR_CMD]]

/-- save_br: validates the baud rate selector (0..6). -/
def save_br (baud_rate : Nat) : Nat × List (List Nat) :=
  if baud_rate ≤ 6 then
    (LCDS_ERR_SUCCESS, [[ESC, BRACKET, addByte baud_rate DIGIT0, BR_SAVE_CMD]])
  else
    (LCDS_ERR_ARG_BR_RANGE, [])

/-- chars_to_lcd: validates the character table index (0..3). -/
def chars_to_lcd (char_table : Nat) : Nat × List (List Nat) :=
  if char_table ≤ 3 then
    (LCDS_ERR_SUCCESS, [[ESC, BRACKET, addByte char_table DIGIT0, PRG_CHAR_CMD]])
  else
    (LCDS_ERR_ARG_TABLE_RANGE, [])

/-- save_ram_to_eeprom: validates the character table index (0..3). -/
def save_ram_to_eeprom (char_table : Nat) : Nat × List (List Nat) :=
  if char_table ≤ 3 then
    (LCDS_ERR_SUCCESS, [[ESC, BRACKET, addByte char_table DIGIT0, SAVE_RAM_TO_EEPROM_CMD]])
  else
    (LCDS_ERR_ARG_TABLE_RANGE, [])

/-- ld_eeprom_to_ram: validates the character table index (0..3). -/
def ld_eeprom_to_ram (char_table : Nat) : Nat × List (List Nat) :=
  if char_table ≤ 3 then
    (LCDS_ERR_SUCCESS, [[ESC, BRACKET, addByte char_table DIGIT0, LD_EEPROM_TO_RAM_CMD]])
  else
    (LCDS_ERR_ARG_TABLE_RANGE, [])

/-- save_comm_to_eeprom: validates the comm mode selector (0..2). -/
def save_comm_to_eeprom (comm_sel : Nat) : Nat × List (List Nat) :=
  if comm_sel ≤ 2 then
    (LCDS_ERR_SUCCESS, [[ESC, BRACKET, addByte comm_sel DIGIT0, COMM_MODE_SAVE_CMD]])
  else
    (LCDS_ERR_ARG_COMM_RANGE, [])

/-- eeprom_wr_en: enables EEPROM writes. -/
def eeprom_wr_en : List (List Nat) := [[ESC, BRACKET, 48, EEPROM_WR_EN_CMD]]

/-- save_cursor_to_eeprom: validates the cursor mode (0..2). -/
def save_cursor_to_eeprom (mode_crs : Nat) : Nat × List (List Nat) :=
  if mode_crs ≤ 2 then
    (LCDS_ERR_SUCCESS, [[ESC, BRACKET, addByte mode_crs DIGIT0, CURSOR_MODE_SAVE_CMD]])
  else
    (LCDS_ERR_ARG_CRS_RANGE, [])

/-- save_display_to_eeprom: validates the display mode (0..1). -/
def save_display_to_eeprom (mode_disp : Nat) : Nat × List (List Nat) :=
  if mode_disp ≤ 1 then
    (LCDS_ERR_SUCCESS, [[ESC, BRACKET, addByte mode_disp DIGIT0, DISP_MODE_SAVE_CMD]])
  else
    (LCDS_ERR_ARG_DSP_RANGE, [])

/-- One uppercase hexadecimal digit of a nibble, as its ASCII code. -/
def hexDigit (n : Nat) : Nat := if n < 10 then n + 48 else n + 55

/-- The five ASCII bytes of one token 0xNN; for a row byte (format 0x{:02X}; ). -/
def hexToken (val : Nat) : List Nat :=
  [48, 120, hexDigit (val % 256 / 16), hexDigit (val % 16), SEMI]

/-- build_user_def_char: appends the 0xNN; tokens of (at most) the first
eight row bytes to the command buffer. -/
def build_user_def_char (str_user_def : List Nat) (cmd_str : List Nat) : List Nat :=
  cmd_str ++ (str_user_def.take 8).flatMap hexToken

/-- define_user_char: validates the slot (0..7), then builds one buffer:
ESC, BRACKET, a raw 0 byte (the source pushes the numeric literal 0, not
the digit character), the hex tokens, slot digit, define opcode, then the
second escape sequence selecting table 3 with the program opcode. -/
def define_user_char (str_user_def : List Nat) (char_pos : Nat) :
    Nat × List (List Nat) :=
  if char_pos > 7 then
    (LCDS_ERR_ARG_POS_RANGE, [])
  else
    let cmd := [ESC, BRACKET, 0]
    let cmd := build_user_def_char str_user_def cmd
    let cmd := cmd ++ [addByte char_pos DIGIT0, DEF_CHAR_CMD]
    let cmd := cmd ++ [ESC, BRACKET, 51, PRG_CHAR_CMD]
    (LCDS_ERR_SUCCESS, [cmd])

/-- set_pos: validates row (0..2) and column (0..39), ORing the range codes
into the result, then on success sends the full position sequence with the
row digit, separator, tens digit and ones digit. -/
def set_pos (idx_row idx_col : Nat) : Nat × List (List Nat) :=
  let bresult := LCDS_ERR_SUCCESS
  let bresult := if idx_row > 2 then bresult ||| LCDS_ERR_ARG_ROW_RANGE else bresult
  let bresult := if idx_col > 39 then bresult ||| LCDS_ERR_ARG_COL_RANGE else bresult
  if bresult = LCDS_ERR_SUCCESS then
    let first_digit := idx_col % 10
    let second_digit := idx_col / 10
    (bresult,
      [[ESC, BRACKET, addByte idx_row DIGIT0, SEMI, addByte second_digit DIGIT0,
        addByte first_digit DIGIT0, CURSOR_POS_CMD]])
  else
    (bresult, [])

/-- disp_user_char: validates row and column (ORing the range codes), then
sends the set_pos sequence followed by a clamped prefix of the slot list. -/
def disp_user_char (char_pos : List Nat) (char_number idx_row idx_col : Nat) :
    Nat × List (List Nat) :=
  let bresult := LCDS_ERR_SUCCESS
  let bresult := if idx_row > 2 then bresult ||| LCDS_ERR_ARG_ROW_RANGE else bresult
  let bresult := if idx_col > 39 then bresult ||| LCDS_ERR_ARG_COL_RANGE else bresult
  if bresult = LCDS_ERR_SUCCESS then
    let to_send := char_pos.take (min char_number char_pos.length)
    (bresult, (set_pos idx_row idx_col).2 ++ [to_send])
  else
    (bresult, [])

/-- Outcome of one send_bytes call as seen on the observability (log)
channel: the info log on a successful write, the error log on a failed
write, or the error log when the SPI module is uninitialized.  send_bytes
returns unit in the source, so this log event is its only observable. -/
inductive LogEvent where
  | infoSent (bytes : List Nat)
  | errWriteFailed
  | errNotInit
  deriving DecidableEq, Repr

/-- The transport handle: none = uninitialized (Spi absent); some ok
abstracts an initialized Spi whose write calls succeed iff ok.  This is
the only field of the LCDS struct. -/
structure State where
  spi_module : Option Bool
  deriving DecidableEq, Repr

/-- send_bytes: writes through the handle if present, logging the outcome;
it is total and never propagates the failure to its caller. -/
def send_bytes (spi : Option Bool) (bytes : List Nat) : LogEvent :=
  match spi with
  | some ok => if ok then LogEvent.infoSent bytes else LogEvent.errWriteFailed
  | none => LogEvent.errNotInit

/-- save_br executed against a transport state: the returned error code is
computed exactly as in save_br, and the log events of its send_bytes calls
are collected. -/
def save_br_run (spi : Option Bool) (baud_rate : Nat) : Nat × List LogEvent :=
  if baud_rate ≤ 6 then
    (LCDS_ERR_SUCCESS, [send_bytes spi [ESC, BRACKET, addByte baud_rate DIGIT0, BR_SAVE_CMD]])
  else
    (LCDS_ERR_ARG_BR_RANGE, [])

/-- set_pos executed against a transport state, collecting log events. -/
def set_pos_run (spi : Option Bool) (idx_row idx_col : Nat) : Nat × List LogEvent :=
  ((set_pos idx_row idx_col).1,
   (set_pos idx_row idx_col).2.map (send_bytes spi))

/-- Modelled from the claim C7 wording, for comparison with the code: the
buffer that the claim says define_user_char emits, with the two-byte
preamble immediately followed by the eight hex tokens and no other bytes
in between. -/
def define_user_char_spec (rows : List Nat) (slot : Nat) : List Nat :=
  [ESC, BRACKET] ++ (rows.take 8).flatMap hexToken ++
    [addByte slot DIGIT0, DEF_CHAR_CMD, ESC, BRACKET, 51, PRG_CHAR_CMD]

/-- One public driver call with its operands. -/
inductive Cmd where
  | displaySet (set_display set_bckl : Bool)
  | cursorModeSet (set_cursor set_blink : Bool)
  | displayClear
  | writeStringAtPos (idx_row idx_col : Nat) (str_ln : List Nat)
  | displayScroll (direction : Bool) (idx_col : Nat)
  | saveCursor
  | restoreCursor
  | displayMode (char_number : Bool)
  | eraseInLine (erase_param : Nat)
  | eraseChars (chars_number : Nat)
  | resetCmd
  | saveTwiAddr (addr_eeprom : Nat)
  | saveBr (baud_rate : Nat)
  | charsToLcd (char_table : Nat)
  | saveRamToEeprom (char_table : Nat)
  | ldEepromToRam (char_table : Nat)
  | saveCommToEeprom (comm_sel : Nat)
  | eepromWrEn
  | saveCursorToEeprom (mode_crs : Nat)
  | saveDisplayToEeprom (mode_disp : Nat)
  | defineUserChar (str_user_def : List Nat) (char_pos : Nat)
  | dispUserChar (char_pos : List Nat) (char_number idx_row idx_col : Nat)
  | setPos (idx_row idx_col : Nat)
  deriving DecidableEq, Repr

/-- The error code and dispatched buffers of one call.  Operations that
return no code in the source are reported as LCDS_ERR_SUCCESS here (they
perform no operand validation). -/
def execCmd : Cmd → Nat × List (List Nat)
  | Cmd.displaySet d b => (LCDS_ERR_SUCCESS, display_set d b)
  | Cmd.cursorModeSet c b => (LCDS_ERR_SUCCESS, cursor_mode_set c b)
  | Cmd.displayClear => (LCDS_ERR_SUCCESS, display_clear)
  | Cmd.writeStringAtPos r c s => write_string_at_pos r c s
  | Cmd.displayScroll d c => display_scroll d c
  | Cmd.saveCursor => (LCDS_ERR_SUCCESS, save_cursor)
  | Cmd.restoreCursor => (LCDS_ERR_SUCCESS, restore_cursor)
  | Cmd.displayMode b => (LCDS_ERR_SUCCESS, display_mode b)
  | Cmd.eraseInLine p => erase_in_line p
  | Cmd.eraseChars n => (LCDS_ERR_SUCCESS, erase_chars n)
  | Cmd.resetCmd => (LCDS_ERR_SUCCESS, reset)
  | Cmd.saveTwiAddr a => (LCDS_ERR_SUCCESS, save_twi_addr a)
  | Cmd.saveBr v => save_br v
  | Cmd.charsToLcd t => chars_to_lcd t
  | Cmd.saveRamToEeprom t => save_ram_to_eeprom t
  | Cmd.ldEepromToRam t => ld_eeprom_to_ram t
  | Cmd.saveCommToEeprom s => save_comm_to_eeprom s
  | Cmd.eepromWrEn => (LCDS_ERR_SUCCESS, eeprom_wr_en)
  | Cmd.saveCursorToEeprom m => save_cursor_to_eeprom m
  | Cmd.saveDisplayToEeprom m => save_display_to_eeprom m
  | Cmd.defineUserChar s p => define_user_char s p
  | Cmd.dispUserChar cp n r c => disp_user_char cp n r c
  | Cmd.setPos r c => set_pos r c

/-- One call against a driver state.  Every public operation other than
begin takes the receiver immutably, so the state is returned unchanged. -/
def runCmd (s : State) (c : Cmd) : State × Nat × List (List Nat) :=
  (s, execCmd c)

/-- A sequence of calls against a driver state, concatenating the
dispatched buffers. -/
def runTrace (s : State) (cs : List Cmd) : State × List (List Nat) :=
  match cs with
  | [] => (s, [])
  | c :: rest =>
    let r := runCmd s c
    let rr := runTrace r.1 rest
    (rr.1, r.2.2 ++ rr.2)

end LCDS

/-- C1: for every public operation and every combination of operand values,
if the operation reports a validation error (a non-success code), then it
hands no buffer at all to the transport: either the whole command sequence
is dispatched or nothing is. -/
theorem C1_invalid_operand_sends_nothing (c : LCDS.Cmd)
    (h : (LCDS.execCmd c).1 ≠ LCDS.LCDS_ERR_SUCCESS) :
    (LCDS.execCmd c).2 = [] := by
  cases c with
  | displaySet d b => exact absurd rfl h
  | cursorModeSet d b => exact absurd rfl h
  | displayClear => exact absurd rfl h
  | saveCursor => exact absurd rfl h
  | restoreCursor => exact absurd rfl h
  | displayMode b => exact absurd rfl h
  | eraseChars n => exact absurd rfl h
  | resetCmd => exact absurd rfl h
  | saveTwiAddr a => exact absurd rfl h
  | eepromWrEn => exact absurd rfl h
  | writeStringAtPos r c s =>
      by_cases h1 : 2 < r <;> by_cases h2 : 39 < c
      · simp [LCDS.execCmd, LCDS.write_string_at_pos, h1, h2, LCDS.LCDS_ERR_SUCCESS,
          LCDS.LCDS_ERR_ARG_ROW_RANGE]
      · simp [LCDS.execCmd, LCDS.write_string_at_pos, h1, h2, LCDS.LCDS_ERR_SUCCESS,
          LCDS.LCDS_ERR_ARG_ROW_RANGE]
      · simp [LCDS.execCmd, LCDS.write_string_at_pos, h1, h2, LCDS.LCDS_ERR_SUCCESS,
          LCDS.LCDS_ERR_ARG_ROW_RANGE]
      · simp [LCDS.execCmd, LCDS.write_string_at_pos, h1, h2, LCDS.LCDS_ERR_SUCCESS] at h
  | displayScroll d c =>
      by_cases h1 : c ≤ 39
      · simp [LCDS.execCmd, LCDS.display_scroll, h1, LCDS.LCDS_ERR_SUCCESS] at h
      · simp [LCDS.execCmd, LCDS.display_scroll, h1]
  | eraseInLine p =>
      by_cases h1 : p ≤ 2
      · simp [LCDS.execCmd, LCDS.erase_in_line, h1, LCDS.LCDS_ERR_SUCCESS] at h
      · simp [LCDS.execCmd, LCDS.erase_in_line, h1]
  | saveBr v =>
      by_cases h1 : v ≤ 6
      · simp [LCDS.execCmd, LCDS.save_br, h1, LCDS.LCDS_ERR_SUCCESS] at h
      · simp [LCDS.execCmd, LCDS.save_br, h1]
  | charsToLcd t =>
      by_cases h1 : t ≤ 3
      · simp [LCDS.execCmd, LCDS.chars_to_lcd, h1, LCDS.LCDS_ERR_SUCCESS] at h
      · simp [LCDS.execCmd, LCDS.chars_to_lcd, h1]
  | saveRamToEeprom t =>
      by_cases h1 : t ≤ 3
      · simp [LCDS.execCmd, LCDS.save_ram_to_eeprom, h1, LCDS.LCDS_ERR_SUCCESS] at h
      · simp [LCDS.execCmd, LCDS.save_ram_to_eeprom, h1]
  | ldEepromToRam t =>
      by_cases h1 : t ≤ 3
      · simp [LCDS.execCmd, LCDS.ld_eeprom_to_ram, h1, LCDS.LCDS_ERR_SUCCESS] at h
      · simp [LCDS.execCmd, LCDS.ld_eeprom_to_ram, h1]
  | saveCommToEeprom m =>
      by_cases h1 : m ≤ 2
      · simp [LCDS.execCmd, LCDS.save_comm_to_eeprom, h1, LCDS.LCDS_ERR_SUCCESS] at h
      · simp [LCDS.execCmd, LCDS.save_comm_to_eeprom, h1]
  | saveCursorToEeprom m =>
      by_cases h1 : m ≤ 2
      · simp [LCDS.execCmd, LCDS.save_cursor_to_eeprom, h1, LCDS.LCDS_ERR_SUCCESS] at h
      · simp [LCDS.execCmd, LCDS.save_cursor_to_eeprom, h1]
  | saveDisplayToEeprom m =>
      by_cases h1 : m ≤ 1
      · simp [LCDS.execCmd, LCDS.save_display_to_eeprom, h1, LCDS.LCDS_ERR_SUCCESS] at h
      · simp [LCDS.execCmd, LCDS.save_display_to_eeprom, h1]
  | defineUserChar s p =>
      by_cases h1 : 7 < p
      · simp [LCDS.execCmd, LCDS.define_user_char, h1]
      · simp [LCDS.execCmd, LCDS.define_user_char, h1, LCDS.LCDS_ERR_SUCCESS] at h
  | dispUserChar cp n r c =>
      by_cases h1 : 2 < r <;> by_cases h2 : 39 < c
      · simp [LCDS.execCmd, LCDS.disp_user_char, h1, h2, LCDS.LCDS_ERR_SUCCESS,
          LCDS.LCDS_ERR_ARG_ROW_RANGE, LCDS.LCDS_ERR_ARG_COL_RANGE]
      · simp [LCDS.execCmd, LCDS.disp_user_char, h1, h2, LCDS.LCDS_ERR_SUCCESS,
          LCDS.LCDS_ERR_ARG_ROW_RANGE, LCDS.LCDS_ERR_ARG_COL_RANGE]
      · simp [LCDS.execCmd, LCDS.disp_user_char, h1, h2, LCDS.LCDS_ERR_SUCCESS,
          LCDS.LCDS_ERR_ARG_ROW_RANGE, LCDS.LCDS_ERR_ARG_COL_RANGE]
      · simp [LCDS.execCmd, LCDS.disp_user_char, h1, h2, LCDS.LCDS_ERR_SUCCESS] at h
  | setPos r c =>
      by_cases h1 : 2 < r <;> by_cases h2 : 39 < c
      · simp [LCDS.execCmd, LCDS.set_pos, h1, h2, LCDS.LCDS_ERR_SUCCESS,
          LCDS.LCDS_ERR_ARG_ROW_RANGE, LCDS.LCDS_ERR_ARG_COL_RANGE]
      · simp [LCDS.execCmd, LCDS.set_pos, h1, h2, LCDS.LCDS_ERR_SUCCESS,
          LCDS.LCDS_ERR_ARG_ROW_RANGE, LCDS.LCDS_ERR_ARG_COL_RANGE]
      · simp [LCDS.execCmd, LCDS.set_pos, h1, h2, LCDS.LCDS_ERR_SUCCESS,
          LCDS.LCDS_ERR_ARG_ROW_RANGE, LCDS.LCDS_ERR_ARG_COL_RANGE]
      · simp [LCDS.execCmd, LCDS.set_pos, h1, h2, LCDS.LCDS_ERR_SUCCESS] at h

theorem C1_witness : (LCDS.execCmd (LCDS.Cmd.setPos 3 0)).2 = [] :=
  C1_invalid_operand_sends_nothing (LCDS.Cmd.setPos 3 0) (by decide)

/-- C2 counterexample: with both operands invalid, set_pos returns the
bitwise OR of the row-range and column-range codes (3), not the row-range
code alone, refuting the claim that the first domain check wins. -/
theorem C2_counterexample :
    (LCDS.set_pos 3 40).1 =
      (LCDS.LCDS_ERR_ARG_ROW_RANGE ||| LCDS.LCDS_ERR_ARG_COL_RANGE) ∧
    (LCDS.set_pos 3 40).1 ≠ LCDS.LCDS_ERR_ARG_ROW_RANGE := by decide

/-- C2 amended: when both the row and the column operand are invalid,
set_pos returns the bitwise OR of the row-range and column-range codes,
while write_string_at_pos returns exactly the row-range code because its
column check also ORs in the row-range code. -/
theorem C2_amended_both_invalid (r c : Nat) (s : List Nat)
    (hr8 : r < 256) (hc8 : c < 256) (hr : 2 < r) (hc : 39 < c) :
    (LCDS.set_pos r c).1 =
      (LCDS.LCDS_ERR_ARG_ROW_RANGE ||| LCDS.LCDS_ERR_ARG_COL_RANGE) ∧
    (LCDS.write_string_at_pos r c s).1 = LCDS.LCDS_ERR_ARG_ROW_RANGE := by
  constructor <;>
    simp [LCDS.set_pos, LCDS.write_string_at_pos, hr, hc, LCDS.LCDS_ERR_SUCCESS,
      LCDS.LCDS_ERR_ARG_ROW_RANGE, LCDS.LCDS_ERR_ARG_COL_RANGE]

theorem C2_witness :
    (LCDS.set_pos 5 41).1 =
      (LCDS.LCDS_ERR_ARG_ROW_RANGE ||| LCDS.LCDS_ERR_ARG_COL_RANGE) ∧
    (LCDS.write_string_at_pos 5 41 [65]).1 = LCDS.LCDS_ERR_ARG_ROW_RANGE :=
  C2_amended_both_invalid 5 41 [65] (by decide) (by decide) (by decide) (by decide)

/-- C5 counterexample: at row 5, column 50 both operands are invalid and
set_pos returns 3, which is neither the row-range nor the column-range
code, refuting the claim that the code corresponding to the violated
operand is returned; the transport still receives zero bytes. -/
theorem C5_counterexample :
    (LCDS.set_pos 5 50).1 ≠ LCDS.LCDS_ERR_ARG_ROW_RANGE ∧
    (LCDS.set_pos 5 50).1 ≠ LCDS.LCDS_ERR_ARG_COL_RANGE ∧
    (LCDS.set_pos 5 50).2 = [] := by decide

/-- C5 amended: for any invalid operand combination, set_pos emits zero
bytes and returns the row-range code when only the row is invalid, the
column-range code when only the column is invalid, and the bitwise OR of
the two codes when both are invalid. -/
theorem C5_amended_set_pos_errors (r c : Nat)
    (hr8 : r < 256) (hc8 : c < 256) (h : 2 < r ∨ 39 < c) :
    (LCDS.set_pos r c).2 = [] ∧
    (LCDS.set_pos r c).1 =
      ((if 2 < r then LCDS.LCDS_ERR_ARG_ROW_RANGE else 0) |||
       (if 39 < c then LCDS.LCDS_ERR_ARG_COL_RANGE else 0)) := by
  by_cases h1 : 2 < r <;> by_cases h2 : 39 < c <;>
    simp [LCDS.set_pos, h1, h2, LCDS.LCDS_ERR_SUCCESS,
      LCDS.LCDS_ERR_ARG_ROW_RANGE, LCDS.LCDS_ERR_ARG_COL_RANGE] <;>
    omega

theorem C5_witness :
    (LCDS.set_pos 0 40).2 = [] ∧
    (LCDS.set_pos 0 40).1 =
      ((if 2 < (0:Nat) then LCDS.LCDS_ERR_ARG_ROW_RANGE else 0) |||
       (if 39 < (40:Nat) then LCDS.LCDS_ERR_ARG_COL_RANGE else 0)) :=
  C5_amended_set_pos_errors 0 40 (by decide) (by decide) (Or.inr (by decide))

/-- C10: erase_chars performs no validation and returns no error code; it
unconditionally dispatches the four bytes ESC, BRACKET, the 8-bit sum of
the count and the digit-zero code, and the erase-field opcode; that
parameter byte is an ASCII digit exactly for counts 0..9, and the 8-bit
addition wraps (value + 48 - 256) for counts above 207. -/
theorem C10_erase_chars_encoding (n : Nat) (hn : n < 256) :
    LCDS.erase_chars n =
      [[LCDS.ESC, LCDS.BRACKET, (n + 48) % 256, LCDS.ERASE_FIELD_CMD]] ∧
    ((48 ≤ (n + 48) % 256 ∧ (n + 48) % 256 ≤ 57) ↔ n ≤ 9) ∧
    (207 < n → (n + 48) % 256 = n + 48 - 256) := by
  refine ⟨rfl, ?_, ?_⟩ <;> omega

theorem C10_witness :
    LCDS.erase_chars 250 = [[27, 91, 42, 78]] ∧
    (250 + 48) % 256 = 250 + 48 - 256 := by
  have h := C10_erase_chars_encoding 250 (by decide)
  exact ⟨h.1.trans (by decide), h.2.2 (by decide)⟩

/-- C3 counterexample: save_br with a valid operand on an uninitialized
transport handle, and on a handle whose write fails, still returns the
success error code to the caller, refuting the claim that the operation
does not report the success code in those cases. -/
theorem C3_counterexample :
    (LCDS.save_br_run none 3).1 = LCDS.LCDS_ERR_SUCCESS ∧
    (LCDS.save_br_run (some false) 3).1 = LCDS.LCDS_ERR_SUCCESS := by decide

/-- C3 amended: when the transport handle is uninitialized or the
underlying write fails, the dispatcher never produces the success log
event and returns normally (no panic, the function is total), but the
operation still returns the success error code to the caller; the failure
is visible only on the log channel. -/
theorem C3_amended_dispatch_failure (spi : Option Bool) (bytes : List Nat)
    (baud : Nat) (hspi : spi = none ∨ spi = some false) (hbaud : baud ≤ 6) :
    (∀ bs, LCDS.send_bytes spi bytes ≠ LCDS.LogEvent.infoSent bs) ∧
    (LCDS.save_br_run spi baud).1 = LCDS.LCDS_ERR_SUCCESS ∧
    (∀ bs, ¬ LCDS.LogEvent.infoSent bs ∈ (LCDS.save_br_run spi baud).2) := by
  rcases hspi with h | h <;> subst h <;>
    simp [LCDS.send_bytes, LCDS.save_br_run, hbaud, LCDS.LCDS_ERR_SUCCESS]

theorem C3_witness :
    LCDS.send_bytes none [27] ≠ LCDS.LogEvent.infoSent [27] ∧
    (LCDS.save_br_run none 3).1 = LCDS.LCDS_ERR_SUCCESS :=
  ⟨(C3_amended_dispatch_failure none [27] 3 (Or.inl rfl) (by decide)).1 [27],
   (C3_amended_dispatch_failure none [27] 3 (Or.inl rfl) (by decide)).2.1⟩

/-- C4: evaluation at a valid position. set_pos emits the full seven-byte
sequence with the row digit, separator, tens digit and ones digit of the
column; but the cursor-positioning prefix of write_string_at_pos emits
only six bytes, omitting the ones digit of the column (the source computes
first_digit and never uses it), contradicting the claim for that
operation. -/
theorem C4_write_prefix_missing_ones_digit :
    LCDS.set_pos 1 23 =
      (LCDS.LCDS_ERR_SUCCESS, [[27, 91, 49, 59, 50, 51, 72]]) ∧
    LCDS.write_string_at_pos 1 23 [65] =
      (LCDS.LCDS_ERR_SUCCESS, [[27, 91, 49, 59, 50, 72], [65]]) := by decide

/-- C6: for every valid row and column and every byte string,
write_string_at_pos returns success and sends, after the position prefix,
exactly the prefix of the string of length (40 - column) when the string
length plus the column exceeds 40 and the full string otherwise, so the
column plus the number of emitted bytes never exceeds 40; truncation is
never reported as an error. -/
theorem C6_truncation_success (r c : Nat) (s : List Nat)
    (hr : r ≤ 2) (hc : c ≤ 39) :
    LCDS.write_string_at_pos r c s =
      (LCDS.LCDS_ERR_SUCCESS,
        [[LCDS.ESC, LCDS.BRACKET, r + 48, LCDS.SEMI, c / 10 + 48,
          LCDS.CURSOR_POS_CMD],
         s.take (if s.length + c > 40 then 40 - c else s.length)]) ∧
    c + (s.take (if s.length + c > 40 then 40 - c else s.length)).length ≤ 40 := by
  have h1 : ¬ 2 < r := by omega
  have h2 : ¬ 39 < c := by omega
  constructor
  · simp [LCDS.write_string_at_pos, h1, h2, LCDS.LCDS_ERR_SUCCESS, LCDS.addByte,
      LCDS.DIGIT0]
    omega
  · split <;> simp [List.length_take] <;> omega

theorem C6_witness :
    LCDS.write_string_at_pos 0 38 [72, 69, 76, 76, 79] =
      (LCDS.LCDS_ERR_SUCCESS, [[27, 91, 48, 59, 51, 72], [72, 69]]) ∧
    38 + 2 ≤ 40 := by
  have h := C6_truncation_success 0 38 [72, 69, 76, 76, 79] (by decide) (by decide)
  exact ⟨h.1.trans (by decide), by decide⟩

/-- C7 counterexample: the buffer define_user_char actually emits differs
from the buffer the claim describes (preamble immediately followed by the
hex tokens): the code pushes a raw 0x00 byte between the preamble and the
first token. -/
theorem C7_counterexample :
    (LCDS.define_user_char (List.replicate 8 31) 0).2 ≠
      [LCDS.define_user_char_spec (List.replicate 8 31) 0] ∧
    ((LCDS.define_user_char (List.replicate 8 31) 0).2.headD []).take 3 =
      [27, 91, 0] := by decide

/-- C7 amended: for every 8-byte character definition and slot in 0..7,
define_user_char returns success and emits one buffer consisting of the
two-byte preamble, then a raw 0x00 byte, then the eight 0xNN; tokens in
row order, then the slot as an ASCII digit, the define opcode, a second
preamble, the ASCII digit 3 and the program-character-table opcode. -/
theorem C7_amended_define_user_char (rows : List Nat) (slot : Nat)
    (h8 : rows.length = 8) (hs : slot ≤ 7) :
    LCDS.define_user_char rows slot =
      (LCDS.LCDS_ERR_SUCCESS,
       [[LCDS.ESC, LCDS.BRACKET, 0] ++ rows.flatMap LCDS.hexToken ++
        [slot + 48, LCDS.DEF_CHAR_CMD, LCDS.ESC, LCDS.BRACKET, 51,
         LCDS.PRG_CHAR_CMD]]) := by
  have h1 : ¬ 7 < slot := by omega
  have htake : rows.take 8 = rows := List.take_of_length_le (by omega)
  simp [LCDS.define_user_char, LCDS.build_user_def_char, h1, htake,
    LCDS.addByte, LCDS.DIGIT0, Nat.mod_eq_of_lt (by omega : slot + 48 < 256)]

theorem C7_witness :
    LCDS.define_user_char (List.replicate 8 31) 0 =
      (LCDS.LCDS_ERR_SUCCESS,
       [[27, 91, 0,
         48, 120, 49, 70, 59, 48, 120, 49, 70, 59, 48, 120, 49, 70, 59,
         48, 120, 49, 70, 59, 48, 120, 49, 70, 59, 48, 120, 49, 70, 59,
         48, 120, 49, 70, 59, 48, 120, 49, 70, 59,
         48, 100, 27, 91, 51, 112]]) := by
  have h := C7_amended_define_user_char (List.replicate 8 31) 0 (by decide) (by decide)
  exact h.trans (by decide)

/-- The driver state is never changed by a public call: every operation
other than begin takes the receiver immutably. -/
theorem runTrace_fst (s : LCDS.State) (cs : List LCDS.Cmd) :
    (LCDS.runTrace s cs).1 = s := by
  induction cs with
  | nil => rfl
  | cons c rest ih => simpa [LCDS.runTrace, LCDS.runCmd] using ih

/-- C8: the buffers an operation emits do not depend on the call history:
running any history first leaves the encoding of the next call unchanged,
and running the same call twice in a row emits the identical byte buffers
both times. -/
theorem C8_encoding_history_independent (s : LCDS.State) (hist : List LCDS.Cmd)
    (c : LCDS.Cmd) :
    (LCDS.runCmd (LCDS.runTrace s hist).1 c).2.2 = (LCDS.runCmd s c).2.2 ∧
    (LCDS.runTrace s [c, c]).2 = (LCDS.execCmd c).2 ++ (LCDS.execCmd c).2 := by
  constructor
  · rw [runTrace_fst]
  · simp [LCDS.runTrace, LCDS.runCmd]

/-- C9: for every slot list, count and valid position, disp_user_char
returns success and sends, after the set_pos sequence, exactly the prefix
of the slot list of length min(count, length); the clamped index never
reads past the end of the list. -/
theorem C9_disp_user_char_clamped (cp : List Nat) (n r c : Nat)
    (hr : r ≤ 2) (hc : c ≤ 39) :
    (LCDS.disp_user_char cp n r c).1 = LCDS.LCDS_ERR_SUCCESS ∧
    (LCDS.disp_user_char cp n r c).2 =
      (LCDS.set_pos r c).2 ++ [cp.take (min n cp.length)] ∧
    (cp.take (min n cp.length)).length = min n cp.length := by
  have h1 : ¬ 2 < r := by omega
  have h2 : ¬ 39 < c := by omega
  refine ⟨?_, ?_, ?_⟩
  · simp [LCDS.disp_user_char, h1, h2, LCDS.LCDS_ERR_SUCCESS]
  · simp [LCDS.disp_user_char, LCDS.set_pos, h1, h2, LCDS.LCDS_ERR_SUCCESS]
  · simp [List.length_take]

theorem C9_witness :
    (LCDS.disp_user_char [1, 2, 3] 5 0 0).1 = LCDS.LCDS_ERR_SUCCESS ∧
    (LCDS.disp_user_char [1, 2, 3] 5 0 0).2 =
      [[27, 91, 48, 59, 48, 48, 72], [1, 2, 3]] := by
  have h := C9_disp_user_char_clamped [1, 2, 3] 5 0 0 (by decide) (by decide)
  exact ⟨h.1, h.2.1.trans (by decide)⟩
